import Mathlib

/-!
Verification of the mypet parameter/result container core
(`src/my_ni_pexp/mypet/parameter.py`) against its natural-language
specification.  The Python classes are shallowly embedded: each mutable
object becomes an explicit state record, each method a function on that
record, and each `raise` site an `Except.error` with a constructor named
after the error kind the specification assigns to that site.
-/

set_option autoImplicit false

namespace Pypet

/-- Numpy dtypes as far as the classifier distinguishes them.  The source
collapses every string subdtype to `np.str` (parameter.py lines 252-254),
which is the single constructor `dstr` here. -/
inductive Dtype where
  | dint
  | dfloat
  | dbool
  | dstr
  | dobject
deriving DecidableEq, Repr

/-- Python runtime values, restricted to the kinds the claims exercise.
`pyNone` is Python None (the initial `_data` of a Parameter).  `float`
carries its payload as an integer because every float literal appearing in
the claims is integral and the embedded code never computes with floats,
it only stores and compares them.  `ndarray` records dtype, shape, element
payload and the numpy writeable flag.  `dictV` stands for a Python dict (a
value the native classifier rejects); `objTableV` and `frameV` are opaque
handles for ObjectTable and pandas DataFrame instances used as result
items.  `pickled v` is the Python 2 str produced by `pickle.dumps(v)`;
`pickle.loads` is its inverse. -/
inductive Value where
  | pyNone
  | int (n : Int)
  | float (v : Int)
  | bool (b : Bool)
  | str (s : String)
  | ndarray (dtype : Dtype) (shape : List Nat) (elems : List Int) (writeable : Bool)
  | dictV (id : Nat)
  | objTableV (id : Nat)
  | frameV (id : Nat)
  | pickled (v : Value)
deriving DecidableEq, Repr

/-- Python types as compared by `type(x) == type(y)`.  `npArrayFunc` is the
type of the function `np.array` itself: the source compares `type(val1)`
against `np.array` (line 272), and since no value ever has that type the
comparison is always false.  A pickle dump is a Python 2 `str`. -/
inductive PyType where
  | noneT
  | intT
  | floatT
  | boolT
  | strT
  | ndarrayT
  | npArrayFunc
  | dictT
  | objTableT
  | frameT
deriving DecidableEq, Repr

/-- Python `type(v)` for the embedded values. -/
def pyType : Value → PyType
  | Value.pyNone => PyType.noneT
  | Value.int _ => PyType.intT
  | Value.float _ => PyType.floatT
  | Value.bool _ => PyType.boolT
  | Value.str _ => PyType.strT
  | Value.ndarray _ _ _ _ => PyType.ndarrayT
  | Value.dictV _ => PyType.dictT
  | Value.objTableV _ => PyType.objTableT
  | Value.frameV _ => PyType.frameT
  | Value.pickled _ => PyType.strT

/-- Modelled from the spec: the set `globally.PARAMETER_SUPPORTED_DATA` is
imported from the module `mypet.globally`, which is not among the sources.
Section 4.2 of the spec gives the closed set of accepted kinds
Int | Float | Bool | String, arrays being accepted exactly when their
dtype is drawn from the same set. -/
def PARAMETER_SUPPORTED_DATA : List Dtype :=
  [Dtype.dint, Dtype.dfloat, Dtype.dbool, Dtype.dstr]

/-- The dtype key the classifier looks up: `data.dtype` for an ndarray
(string subdtypes collapsed to `dstr`), the dtype corresponding to
`type(data)` for scalars.  Kinds whose Python type is never a member of
the supported set (None, dict, tables, frames) yield no key.  A pickle
dump is a Python 2 str. -/
def dtypeOf : Value → Option Dtype
  | Value.ndarray dt _ _ _ => some dt
  | Value.int _ => some Dtype.dint
  | Value.float _ => some Dtype.dfloat
  | Value.bool _ => some Dtype.dbool
  | Value.str _ => some Dtype.dstr
  | Value.pickled _ => some Dtype.dstr
  | _ => Option.none

/-- Embedding of `Parameter._is_supported_data` (parameter.py 247-259). -/
def is_supported_data (data : Value) : Bool :=
  match dtypeOf data with
  | some dt => PARAMETER_SUPPORTED_DATA.contains dt
  | Option.none => false

/-- Embedding of `Parameter._values_of_same_type` (parameter.py 262-279).
The source first compares Python types; it then intends to compare dtype
and shape of arrays, but guards that block with `type(val1) == np.array`,
where `np.array` is the array constructor function, not the class
`np.ndarray` — no value has that type, so the dtype and shape comparisons
are dead code and the function degenerates to a bare type comparison. -/
def values_of_same_type (val1 val2 : Value) : Bool :=
  if ¬ (pyType val1 = pyType val2) then false
  else if pyType val1 = PyType.npArrayFunc then
    -- dead branch: type(val1) is ndarrayT for arrays, never npArrayFunc
    if ¬ (dtypeOf val1 = dtypeOf val2) then false
    else if ¬ ((match val1 with | Value.ndarray _ sh _ _ => sh | _ => []) =
               (match val2 with | Value.ndarray _ sh _ _ => sh | _ => [])) then false
    else true
  else true

/-- Embedding of `Parameter._convert_data` (parameter.py 321-331): numpy
arrays are made immutable (writeable flag cleared), all else passes
through. -/
def convert_data (val : Value) : Value :=
  match val with
  | Value.ndarray dt sh el _ => Value.ndarray dt sh el false
  | v => v

/-- Error kinds, one constructor per raise site, named after the
specification taxonomy (section 7) where it maps the site:
`lockedError` is `pex.ParameterLockedException`; `alreadyExploredError`
the AttributeError in `set` line 307 and the TypeError in `explore` line
352; `unsupportedTypeError` the AttributeError in `set` line 313 and the
TypeError in `SimpleResult.set_single` line 603; `typeMismatchError` the
TypeError in `_data_sanity_checks` line 376; `nameError` the Python
NameError raised at line 373, where the message of the intended TypeError
interpolates the undefined name `key`; `emptyContainerError` the TypeError
in `shrink` line 416; `indexError` the ValueError in
`set_parameter_access` line 243; `pyIndexError` a genuine Python
IndexError from indexing a tuple out of range; `keyError` a Python
KeyError from a missing table column; `reservedNameError` the ValueError
in `set_single` line 598; `missingFieldError` the AttributeError in
`SimpleResult.__getattr__` line 645; `assertionError` the failed
`assert isinstance(item, str)` at line 594; `pickleError` a failure of
`pickle.loads` on a non-dump. -/
inductive Err where
  | lockedError
  | alreadyExploredError
  | unsupportedTypeError
  | typeMismatchError
  | nameError
  | emptyContainerError
  | indexError
  | pyIndexError
  | keyError
  | reservedNameError
  | missingFieldError
  | assertionError
  | pickleError
deriving DecidableEq, Repr

/-- State of a `Parameter` (and of a `PickleParameter`, which adds no
fields).  Fields mirror the instance attributes: `_fullname`, `_name`,
`_location`, `_comment`, `_length`, `_locked`, `_data`, `_explored_data`
(a tuple, here a list), `_fullcopy`.  The logger attribute carries no
container state and is not modelled. -/
structure Parameter where
  fullname : String
  name : String
  location : String
  comment : Option String
  length : Nat
  locked : Bool
  data : Value
  explored_data : List Value
  fullcopy : Bool
deriving DecidableEq, Repr

/-- Splitting a character list on the dot separator, as
`fullname.split('.')` does: an empty input yields one empty component. -/
def splitDotsAux : List Char → List (List Char)
  | [] => [[]]
  | c :: rest =>
    let r := splitDotsAux rest
    if c = '.' then [] :: r
    else
      match r with
      | [] => [[c]]
      | h :: t => (c :: h) :: t

/-- Joining components back with dots, as `'.'.join(...)` does. -/
def joinDots : List String → String
  | [] => ""
  | [s] => s
  | s :: rest => s ++ "." ++ joinDots rest

/-- Name splitting shared by `BaseParameter.__init__` and `_rename`:
`name` is the last dot-separated component, `location` the joined rest. -/
def splitName (fullname : String) : String × String :=
  let parts := (splitDotsAux fullname.toList).map (fun l => String.mk l)
  (parts.getLast!, joinDots parts.dropLast)

/-- A fresh `Parameter(fullname)` with the default `data=None`
(parameter.py 46-53 and 206-215): no data, length 0, unlocked, empty
exploration tuple, `fullcopy` false. -/
def Parameter.new (fullname : String) : Parameter :=
  { fullname := fullname
    name := (splitName fullname).1
    location := (splitName fullname).2
    comment := Option.none
    length := 0
    locked := false
    data := Value.pyNone
    explored_data := []
    fullcopy := false }

/-- Embedding of `BaseParameter.is_array`: `len(self) > 1`. -/
def Parameter.is_array (p : Parameter) : Bool :=
  p.length > 1

/-- Embedding of `BaseParameter.is_empty`: `len(self) == 0`. -/
def Parameter.is_empty (p : Parameter) : Bool :=
  p.length == 0

/-- Embedding of `Parameter.set` (parameter.py 298-316), parametrised by
the classifier because `self._is_supported_data` dispatches dynamically
(PickleParameter overrides it to accept everything). -/
def set_impl (is_supported : Value → Bool) (p : Parameter) (data : Value) :
    Except Err Parameter :=
  if p.locked then Except.error Err.lockedError
  else if p.is_array then Except.error Err.alreadyExploredError
  else
    let val := convert_data data
    if ¬ is_supported val then Except.error Err.unsupportedTypeError
    else Except.ok { p with data := val, length := 1 }

/-- `Parameter.set` with the native classifier. -/
def Parameter.set (p : Parameter) (data : Value) : Except Err Parameter :=
  set_impl is_supported_data p data

/-- `PickleParameter.set`: inherited body, but `_is_supported_data`
resolves to the override that returns True (parameter.py 449-451). -/
def PickleParameter.set (p : Parameter) (data : Value) : Except Err Parameter :=
  set_impl (fun _ => true) p data

/-- Embedding of `Parameter._data_sanity_checks` (parameter.py 362-381).
For each candidate in order: convert; if the classifier rejects it the
source tries to raise a TypeError whose message interpolates the undefined
name `key`, so Python actually raises NameError before the TypeError
exists; if the converted candidate is not of the same type as the current
`_data` it raises the type-mismatch TypeError.  No state is touched. -/
def data_sanity_checks (is_supported : Value → Bool) (default_val : Value) :
    List Value → Except Err (List Value)
  | [] => Except.ok []
  | val :: rest =>
    let newval := convert_data val
    if ¬ is_supported newval then Except.error Err.nameError
    else if ¬ values_of_same_type newval default_val then
      Except.error Err.typeMismatchError
    else
      match data_sanity_checks is_supported default_val rest with
      | Except.error e => Except.error e
      | Except.ok tail => Except.ok (newval :: tail)

/-- Embedding of `Parameter.explore` (parameter.py 342-360): locked check,
already-explored check, sanity checks on the whole list, and only then the
mutation of `_length` and `_explored_data` followed by `self.lock()`. -/
def explore_impl (is_supported : Value → Bool) (p : Parameter)
    (explore_list : List Value) : Except Err Parameter :=
  if p.locked then Except.error Err.lockedError
  else if p.is_array then Except.error Err.alreadyExploredError
  else
    match data_sanity_checks is_supported p.data explore_list with
    | Except.error e => Except.error e
    | Except.ok data_tuple =>
        Except.ok { p with length := data_tuple.length
                           explored_data := data_tuple
                           locked := true }

/-- `Parameter.explore` with the native classifier. -/
def Parameter.explore (p : Parameter) (explore_list : List Value) :
    Except Err Parameter :=
  explore_impl is_supported_data p explore_list

/-- `PickleParameter.explore`: inherited body with the always-true
classifier. -/
def PickleParameter.explore (p : Parameter) (explore_list : List Value) :
    Except Err Parameter :=
  explore_impl (fun _ => true) p explore_list

/-- Embedding of `Parameter.get` (parameter.py 407-409): lock, then return
`_data`.  The result pairs the new state with the returned value. -/
def Parameter.get (p : Parameter) : Parameter × Value :=
  ({ p with locked := true }, p.data)

/-- Embedding of `Parameter.set_parameter_access` (parameter.py 241-245):
raise the ValueError when `n >= len(self) and self.is_array()`; otherwise
`self._data = self._explored_data[n]`, where indexing the tuple out of
range raises a genuine IndexError.  The index is the nonnegative point
number the scheduler passes. -/
def Parameter.set_parameter_access (p : Parameter) (n : Nat) :
    Except Err Parameter :=
  if p.length ≤ n ∧ p.is_array then Except.error Err.indexError
  else
    match p.explored_data.get? n with
    | some v => Except.ok { p with data := v }
    | Option.none => Except.error Err.pyIndexError

/-- Embedding of `Parameter.shrink` (parameter.py 412-422): empty check
first, locked check second, then the exploration tuple is discarded (the
source assigns an empty dict literal `{}`) and `_length` becomes 1. -/
def Parameter.shrink (p : Parameter) : Except Err Parameter :=
  if p.is_empty then Except.error Err.emptyContainerError
  else if p.locked then Except.error Err.lockedError
  else Except.ok { p with explored_data := [], length := 1 }

/-- Embedding of `Parameter.__getstate__` (parameter.py 219-231): a copy
of the instance dict in which, unless `_fullcopy` is set, the exploration
tuple is replaced by the empty tuple.  The deleted logger entry is not
part of the modelled state. -/
def Parameter.getstate (p : Parameter) : Parameter :=
  if ¬ p.fullcopy then { p with explored_data := [] } else p

/-- Embedding of `Parameter.__setstate__` (parameter.py 234-238): the
instance dict is replaced by the snapshot (the logger is rebuilt, which
carries no state). -/
def Parameter.setstate (statedict : Parameter) : Parameter :=
  statedict

/-- An `ObjectTable` as the parameter code builds it: every construction
site passes a dict with exactly one column, a name mapped to an ordered
list of cells held verbatim (dtype=object, no coercion). -/
structure ObjectTable where
  colname : String
  cells : List Value
deriving DecidableEq, Repr

/-- Column lookup `table[name]`; a missing column raises KeyError. -/
def ObjectTable.getCol (t : ObjectTable) (name : String) :
    Except Err (List Value) :=
  if t.colname = name then Except.ok t.cells else Except.error Err.keyError

/-- The record exchanged with the storage service: the mandatory `Data`
table and the `ExploredData` table present only for arrays. -/
structure StoreDict where
  Data : ObjectTable
  ExploredData : Option ObjectTable
deriving DecidableEq, Repr

/-- Embedding of `Parameter.__store__` (parameter.py 384-390). -/
def Parameter.store (p : Parameter) : StoreDict :=
  { Data := { colname := "data", cells := [p.data] }
    ExploredData :=
      if p.is_array then
        some { colname := "data", cells := p.explored_data }
      else Option.none }

/-- Embedding of `Parameter.__load__` (parameter.py 393-399):
`_data := load_dict['Data']['data'][0]`; with `ExploredData` present,
`_explored_data` becomes its `data` column and `_length` its length,
otherwise `_length := 1`. -/
def Parameter.load (p : Parameter) (load_dict : StoreDict) :
    Except Err Parameter :=
  match load_dict.Data.getCol "data" with
  | Except.error e => Except.error e
  | Except.ok cells =>
    match cells.head? with
    | Option.none => Except.error Err.pyIndexError
    | some v =>
      match load_dict.ExploredData with
      | Option.none => Except.ok { p with data := v, length := 1 }
      | some t =>
        match t.getCol "data" with
        | Except.error e => Except.error e
        | Except.ok ecells =>
            Except.ok { p with data := v
                               explored_data := ecells
                               length := ecells.length }

/-- The reserved marker `PickleParameter.identifier` (parameter.py 441). -/
def identifier : String := "__pckl__"

/-- Embedding of `pickle.dumps`: an injective encoding of the value into a
Python 2 str, kept abstract as a tagging constructor. -/
def pickle_dumps (v : Value) : Value :=
  Value.pickled v

/-- Embedding of `pickle.loads`, the inverse of `pickle_dumps`; on a
string that is not a dump it raises. -/
def pickle_loads : Value → Except Err Value
  | Value.pickled v => Except.ok v
  | _ => Except.error Err.pickleError

/-- Character-list test for a pattern occurring at the front. -/
def matchesFront : List Char → List Char → Bool
  | _, [] => true
  | [], _ :: _ => false
  | c :: cs, d :: ds => c = d && matchesFront cs ds

/-- Character-list substring occurrence test. -/
def containsSub : List Char → List Char → Bool
  | [], pat => matchesFront [] pat
  | c :: rest, pat => matchesFront (c :: rest) pat || containsSub rest pat

/-- Substring test `identifier in data_name` as Python `in` on strings. -/
def containsMarker (data_name : String) : Bool :=
  containsSub data_name.toList identifier.toList

/-- Embedding of `PickleParameter.__store__` (parameter.py 454-470): when
the inherited native classifier rejects the current value, every stored
cell is a pickle dump and the column name carries the marker suffix;
otherwise the Parameter algorithm runs unchanged. -/
def PickleParameter.store (p : Parameter) : StoreDict :=
  if ¬ is_supported_data p.data then
    { Data := { colname := "data" ++ identifier
                cells := [pickle_dumps p.data] }
      ExploredData :=
        if p.is_array then
          some { colname := "data" ++ identifier
                 cells := p.explored_data.map pickle_dumps }
        else Option.none }
  else Parameter.store p

/-- Helper for `PickleParameter.__load__`: `pickle.loads` over every cell
of the exploration column, in order. -/
def loadsAll : List Value → Except Err (List Value)
  | [] => Except.ok []
  | c :: rest =>
    match pickle_loads c with
    | Except.error e => Except.error e
    | Except.ok v =>
      match loadsAll rest with
      | Except.error e => Except.error e
      | Except.ok vs => Except.ok (v :: vs)

/-- Embedding of `PickleParameter.__load__` (parameter.py 473-491): the
first column name of the `Data` table selects the path; on the pickled
path `_data` is the unpickled dump and, only when `ExploredData` is
present, `_explored_data` and `_length` are set — the branch without
`ExploredData` leaves `_length` untouched, unlike `Parameter.__load__`.
Without the marker the inherited load runs. -/
def PickleParameter.load (p : Parameter) (load_dict : StoreDict) :
    Except Err Parameter :=
  let data_name := load_dict.Data.colname
  if containsMarker data_name then
    match load_dict.Data.getCol ("data" ++ identifier) with
    | Except.error e => Except.error e
    | Except.ok cells =>
      match cells.head? with
      | Option.none => Except.error Err.pyIndexError
      | some dump =>
        match pickle_loads dump with
        | Except.error e => Except.error e
        | Except.ok v =>
          match load_dict.ExploredData with
          | Option.none => Except.ok { p with data := v }
          | some t =>
            match t.getCol ("data" ++ identifier) with
            | Except.error e => Except.error e
            | Except.ok pcol =>
              match loadsAll pcol with
              | Except.error e => Except.error e
              | Except.ok vals =>
                  Except.ok { p with data := v
                                     explored_data := vals
                                     length := vals.length }
  else Parameter.load p load_dict

/-- Unwrap an ok result; the fallback never occurs at the call sites
below, which all evaluate on concrete ok inputs. -/
def okOr (e : Except Err Parameter) : Parameter :=
  match e with
  | Except.ok p => p
  | Except.error _ => Parameter.new "unreachable"

/-- State of a `SimpleResult` (parameter.py 559-571): the item mapping
`_data` as an insertion-ordered association list, and `_comment`, which
`__init__` fills with whatever object `kwargs.pop('comment', None)`
returns. -/
structure SimpleResult where
  fullname : String
  name : String
  location : String
  comment : Option Value
  data : List (String × Value)
deriving DecidableEq, Repr

/-- Membership of the accepted bulk kinds:
`isinstance(item, (np.ndarray, ObjectTable, DataFrame))` (line 600);
ObjectTable is itself a DataFrame subclass. -/
def isBulk (item : Value) : Bool :=
  match pyType item with
  | PyType.ndarrayT => true
  | PyType.objTableT => true
  | PyType.frameT => true
  | _ => false

/-- Python dict assignment `self._data[name] = item`: replace the value
when the key is present, append otherwise. -/
def assocSet (l : List (String × Value)) (k : String) (v : Value) :
    List (String × Value) :=
  if l.any (fun kv => kv.1 = k) then
    l.map (fun kv => if kv.1 = k then (k, v) else kv)
  else l ++ [(k, v)]

/-- Embedding of `SimpleResult.set_single` (parameter.py 591-603).  The
comment branch asserts the item is a str, stores it, and falls through
(there is no early return), so the `Info` check and the bulk-kind check
still run. -/
def SimpleResult.set_single (r : SimpleResult) (name : String)
    (item : Value) : Except Err SimpleResult :=
  match
    (if name = "comment" ∨ name = "Comment" then
      match item with
      | Value.str s => Except.ok { r with comment := some (Value.str s) }
      | _ => Except.error Err.assertionError
    else Except.ok r : Except Err SimpleResult) with
  | Except.error e => Except.error e
  | Except.ok r1 =>
    if name = "Info" then Except.error Err.reservedNameError
    else if isBulk item then Except.ok { r1 with data := assocSet r1.data name item }
    else Except.error Err.unsupportedTypeError

/-- The positional half of `SimpleResult.set` (parameter.py 582-586):
argument `idx` is stored under the auto-name `res` followed by the
decimal index. -/
def SimpleResult.setPositional : SimpleResult → Nat → List Value →
    Except Err SimpleResult
  | r, _, [] => Except.ok r
  | r, idx, a :: rest =>
    match r.set_single ("res" ++ toString idx) a with
    | Except.error e => Except.error e
    | Except.ok r1 => SimpleResult.setPositional r1 (idx + 1) rest

/-- The keyword half of `SimpleResult.set` (parameter.py 588-589). -/
def SimpleResult.setNamed : SimpleResult → List (String × Value) →
    Except Err SimpleResult
  | r, [] => Except.ok r
  | r, (k, a) :: rest =>
    match r.set_single k a with
    | Except.error e => Except.error e
    | Except.ok r1 => SimpleResult.setNamed r1 rest

/-- Embedding of `SimpleResult.__init__` (parameter.py 565-571): name
splitting, `_data = {}`, `_comment = kwargs.pop('comment', None)`, then
`set(*args, **kwargs)` with `comment` already removed from the keyword
arguments. -/
def SimpleResult.new (fullname : String) (args : List Value)
    (kwargs : List (String × Value)) : Except Err SimpleResult :=
  let base : SimpleResult :=
    { fullname := fullname
      name := (splitName fullname).1
      location := (splitName fullname).2
      comment := (kwargs.lookup "comment")
      data := [] }
  let kwargs1 := kwargs.filter (fun kv => ¬ kv.1 = "comment")
  match SimpleResult.setPositional base 0 args with
  | Except.error e => Except.error e
  | Except.ok r1 => SimpleResult.setNamed r1 kwargs1

/-- Embedding of `SimpleResult.__getattr__` (parameter.py 634-647) for
data names: `Comment`/`comment` return the comment object (possibly
None); an absent name raises; otherwise the item is returned. -/
def SimpleResult.getattr (r : SimpleResult) (name : String) :
    Except Err Value :=
  if name = "Comment" ∨ name = "comment" then
    Except.ok (r.comment.getD Value.pyNone)
  else
    match r.data.lookup name with
    | some v => Except.ok v
    | Option.none => Except.error Err.missingFieldError

/-- Unwrap an ok SimpleResult; the fallback never occurs below. -/
def okOrR (e : Except Err SimpleResult) : SimpleResult :=
  match e with
  | Except.ok r => r
  | Except.error _ =>
    { fullname := "unreachable", name := "", location := ""
      comment := Option.none, data := [] }

/-- A single-value parameter: `Parameter('x.y')` followed by `set(44.0)`. -/
def pSingle : Parameter :=
  okOr ((Parameter.new "x.y").set (Value.float 44))

/-- An exploring parameter: `pSingle` after `explore([1.0, 2.0, 3.0])`. -/
def pExplored : Parameter :=
  okOr (pSingle.explore [Value.float 1, Value.float 2, Value.float 3])

/-- A PickleParameter holding a dict, a value the native classifier
rejects. -/
def pcDict : Parameter :=
  okOr (PickleParameter.set (Parameter.new "p") (Value.dictV 7))

/-- A parameter whose representative is a float ndarray of shape (2,). -/
def pArr : Parameter :=
  okOr ((Parameter.new "a").set (Value.ndarray Dtype.dfloat [2] [1, 2] true))

/-- A SimpleResult built from two accepted bulk items and a comment. -/
def srBulk : SimpleResult :=
  okOrR (SimpleResult.new "t.r" [Value.objTableV 1, Value.frameV 2]
    [("comment", Value.str "c")])

/-- A storage record with a single data cell and no `ExploredData`. -/
def dEmpty : StoreDict :=
  { Data := { colname := "data", cells := [Value.pyNone] }
    ExploredData := Option.none }

/-- C7: for every unlocked single-value Parameter, `get()` returns the
representative value and locks the container; a second `get()` is
idempotent: the container is still locked and the same value is
returned. -/
theorem spec_C7_get_locks (p : Parameter) (hl : p.locked = false)
    (hs : p.length = 1) :
    (Parameter.get p).2 = p.data ∧
    (Parameter.get p).1.locked = true ∧
    (Parameter.get (Parameter.get p).1).2 = p.data ∧
    (Parameter.get (Parameter.get p).1).1 = (Parameter.get p).1 :=
  ⟨rfl, rfl, rfl, rfl⟩

/-- Witness for C7 at the concrete single-value parameter `pSingle`. -/
theorem spec_C7_witness :
    (pSingle.locked = false ∧ pSingle.length = 1) ∧
    ((Parameter.get pSingle).2 = pSingle.data ∧
     (Parameter.get pSingle).1.locked = true ∧
     (Parameter.get (Parameter.get pSingle).1).2 = pSingle.data ∧
     (Parameter.get (Parameter.get pSingle).1).1 = (Parameter.get pSingle).1) :=
  ⟨⟨rfl, rfl⟩, spec_C7_get_locks pSingle rfl rfl⟩

/-- C3: whenever `explore` succeeds the resulting container is locked, and
every subsequent `set` or `explore` call, whatever its argument, fails
with LockedError until `unlock()` is called. -/
theorem spec_C3_explore_locks (p q : Parameter) (vs ws : List Value)
    (v : Value) (h : p.explore vs = Except.ok q) :
    q.locked = true ∧
    q.set v = Except.error Err.lockedError ∧
    q.explore ws = Except.error Err.lockedError := by
  have hq : q.locked = true := by
    unfold Parameter.explore explore_impl at h
    split at h
    · exact absurd h (by simp)
    · split at h
      · exact absurd h (by simp)
      · split at h
        · exact absurd h (by simp)
        · rw [Except.ok.injEq] at h
          rw [← h]
  refine ⟨hq, ?_, ?_⟩
  · unfold Parameter.set set_impl
    simp [hq]
  · unfold Parameter.explore explore_impl
    simp [hq]

/-- Witness for C3: exploring `pSingle` yields the locked `pExplored`, on
which `set` and `explore` fail with LockedError. -/
theorem spec_C3_witness :
    pSingle.explore [Value.float 1, Value.float 2, Value.float 3] =
      Except.ok pExplored ∧
    (pExplored.locked = true ∧
     pExplored.set (Value.float 9) = Except.error Err.lockedError ∧
     pExplored.explore [Value.float 9] = Except.error Err.lockedError) :=
  ⟨rfl, spec_C3_explore_locks pSingle pExplored
    [Value.float 1, Value.float 2, Value.float 3] [Value.float 9]
    (Value.float 9) rfl⟩

/-- C9, counterexample: on an empty Parameter, `explore([1.0])` fails with
the type-mismatch TypeError of `_data_sanity_checks` (the candidate is
compared against the representative None), not with the
EmptyContainerError the claim names; `explore` performs no emptiness
check at all. -/
theorem spec_C9_counterexample :
    (Parameter.new "e").explore [Value.float 1] =
      Except.error Err.typeMismatchError ∧
    Err.typeMismatchError ≠ Err.emptyContainerError :=
  ⟨rfl, by decide⟩

/-- C9, amended: on an unlocked empty Parameter (length 0, representative
still None), `shrink()` fails with EmptyContainerError, while
`explore(values)` on any nonempty list of classifier-accepted candidates
fails with TypeMismatchError, because the candidates are type-checked
against the None representative rather than against an emptiness check;
in both cases the error is raised before any state is mutated. -/
theorem spec_C9_amended (p : Parameter) (v : Value) (vs : List Value)
    (hempty : p.length = 0) (hl : p.locked = false)
    (hdata : p.data = Value.pyNone) (hv : is_supported_data v = true) :
    p.shrink = Except.error Err.emptyContainerError ∧
    p.explore (v :: vs) = Except.error Err.typeMismatchError := by
  constructor
  · unfold Parameter.shrink
    simp [Parameter.is_empty, hempty]
  · have hconv : is_supported_data (convert_data v) = true := by
      cases v <;> simpa [convert_data, is_supported_data, dtypeOf] using hv
    have hmis : values_of_same_type (convert_data v) Value.pyNone = false := by
      cases v <;>
        simp_all [values_of_same_type, pyType, convert_data,
          is_supported_data, dtypeOf, PARAMETER_SUPPORTED_DATA]
    unfold Parameter.explore explore_impl data_sanity_checks
    rw [hdata]
    simp [hl, Parameter.is_array, hempty, hconv, hmis]

/-- Witness for C9 at the fresh empty parameter and the candidate 1.0. -/
theorem spec_C9_witness :
    ((Parameter.new "e").length = 0 ∧ (Parameter.new "e").locked = false ∧
     (Parameter.new "e").data = Value.pyNone ∧
     is_supported_data (Value.float 1) = true) ∧
    ((Parameter.new "e").shrink = Except.error Err.emptyContainerError ∧
     (Parameter.new "e").explore [Value.float 1] =
       Except.error Err.typeMismatchError) :=
  ⟨⟨rfl, rfl, rfl, rfl⟩,
   spec_C9_amended (Parameter.new "e") (Value.float 1) [] rfl rfl rfl rfl⟩

/-- C2, code evaluation at the failing inputs.  On the unlocked
single-value `pSingle`, exploring with a classifier-rejected candidate (a
dict) raises NameError, not the unsupported-type error: the TypeError
message at parameter.py line 373 interpolates the undefined name `key`,
so Python never reaches the raise.  And on `pArr`, whose representative
is a float ndarray of shape (2,), exploring with an ndarray of shape (3,)
succeeds instead of failing with the type-mismatch error: the dtype and
shape comparison in `_values_of_same_type` is guarded by
`type(val1) == np.array`, comparing against the `np.array` function, so
it never runs. -/
theorem spec_C2_code_eval :
    pSingle.locked = false ∧ pSingle.length = 1 ∧
    is_supported_data (Value.dictV 0) = false ∧
    pSingle.explore [Value.dictV 0] = Except.error Err.nameError ∧
    values_of_same_type (Value.ndarray Dtype.dfloat [3] [1, 2, 3] false)
      pArr.data = true ∧
    (pArr.explore [Value.ndarray Dtype.dfloat [3] [1, 2, 3] true]).isOk =
      true :=
  ⟨rfl, rfl, rfl, rfl, rfl, rfl⟩

/-- C5, code evaluation.  A PickleParameter holding a dict stores it under
the marker column name `data__pckl__` with no `ExploredData`, and loading
that record into a fresh parameter reconstructs the dict value — but
`PickleParameter.__load__` never assigns `_length` on the pickled path
when `ExploredData` is absent, so the loaded container keeps length 0 and
reports empty, where the claim (and `Parameter.__load__`) require length
1.  A plain Parameter given the same dict fails with the
unsupported-type error at `set` time. -/
theorem spec_C5_code_eval :
    (PickleParameter.store pcDict).Data.colname = "data" ++ identifier ∧
    containsMarker (PickleParameter.store pcDict).Data.colname = true ∧
    (PickleParameter.store pcDict).ExploredData = Option.none ∧
    PickleParameter.load (Parameter.new "g") (PickleParameter.store pcDict) =
      Except.ok { Parameter.new "g" with data := Value.dictV 7 } ∧
    (Parameter.get (okOr (PickleParameter.load (Parameter.new "g")
      (PickleParameter.store pcDict)))).2 = Value.dictV 7 ∧
    (okOr (PickleParameter.load (Parameter.new "g")
      (PickleParameter.store pcDict))).length = 0 ∧
    (okOr (PickleParameter.load (Parameter.new "g")
      (PickleParameter.store pcDict))).is_empty = true ∧
    (Parameter.new "y").set (Value.dictV 7) =
      Except.error Err.unsupportedTypeError :=
  ⟨rfl, rfl, rfl, rfl, rfl, rfl, rfl, rfl⟩

/-- C6, counterexample: `pExplored` has three exploration points and
`fullcopy` false; after the pickling round trip `setstate(getstate(p))`,
`set_parameter_access(1)` raises IndexError (the exploration tuple was
replaced by the empty tuple in the snapshot, and indexing the empty tuple
fails), so no subsequent `get()` can return the second exploration
value as the claim states. -/
theorem spec_C6_counterexample :
    pExplored.length = 3 ∧ pExplored.fullcopy = false ∧
    (Parameter.setstate (Parameter.getstate pExplored)).set_parameter_access 1 =
      Except.error Err.pyIndexError :=
  ⟨rfl, rfl, rfl⟩

/-- C6, amended: with `fullcopy` false the pickling snapshot of an
exploring Parameter excludes the `exploredValues` sequence, and after the
worker reconstructs the container from that snapshot, `get()` still
returns the value that was current when the snapshot was taken, but
`selectPoint(m)` fails for every index m — with IndexError when m is at
or beyond `length` and with the tuple IndexError otherwise, since the
exploration data is absent; the current point must therefore be selected
before the snapshot is taken. -/
theorem spec_C6_amended (p : Parameter) (m : Nat)
    (hfc : p.fullcopy = false) (hexp : 1 < p.length) :
    (Parameter.getstate p).explored_data = [] ∧
    (Parameter.get (Parameter.setstate (Parameter.getstate p))).2 = p.data ∧
    (Parameter.setstate (Parameter.getstate p)).set_parameter_access m =
      Except.error
        (if p.length ≤ m then Err.indexError else Err.pyIndexError) := by
  have hg : Parameter.getstate p = { p with explored_data := [] } := by
    simp [Parameter.getstate, hfc]
  refine ⟨by rw [hg], by rw [hg]; rfl, ?_⟩
  rw [Parameter.setstate, hg]
  unfold Parameter.set_parameter_access
  by_cases hm : p.length ≤ m
  · simp [hm, Parameter.is_array, hexp]
  · simp [hm]

/-- Witness for C6 at `pExplored` and the in-range index 2. -/
theorem spec_C6_witness :
    (pExplored.fullcopy = false ∧ 1 < pExplored.length) ∧
    ((Parameter.getstate pExplored).explored_data = [] ∧
     (Parameter.get (Parameter.setstate (Parameter.getstate pExplored))).2 =
       pExplored.data ∧
     (Parameter.setstate (Parameter.getstate pExplored)).set_parameter_access 2 =
       Except.error
         (if pExplored.length ≤ 2 then Err.indexError else Err.pyIndexError)) :=
  ⟨⟨rfl, by decide⟩, spec_C6_amended pExplored 2 rfl (by decide)⟩

/-- C8, counterexample: `SimpleResult('t.r', 1.0, 2.0, comment='c')` does
not succeed — `set_single` accepts only ndarray, ObjectTable and
DataFrame items, so the float positional item `res0` raises the
unsupported-type TypeError out of the constructor. -/
theorem spec_C8_counterexample :
    SimpleResult.new "t.r" [Value.float 1, Value.float 2]
      [("comment", Value.str "c")] = Except.error Err.unsupportedTypeError :=
  rfl

/-- C8, amended: construction with scalar floats fails with the
unsupported-type error; with accepted bulk items (here an ObjectTable and
a DataFrame) construction succeeds, the positional items are auto-named
`res0` and `res1` in argument order, and the comment keyword is routed to
the comment field and not stored as a data item. -/
theorem spec_C8_amended :
    SimpleResult.new "t.r" [Value.float 1, Value.float 2]
      [("comment", Value.str "c")] = Except.error Err.unsupportedTypeError ∧
    (SimpleResult.new "t.r" [Value.objTableV 1, Value.frameV 2]
      [("comment", Value.str "c")]).isOk = true ∧
    srBulk.getattr "res0" = Except.ok (Value.objTableV 1) ∧
    srBulk.getattr "res1" = Except.ok (Value.frameV 2) ∧
    srBulk.getattr "comment" = Except.ok (Value.str "c") ∧
    srBulk.comment = some (Value.str "c") ∧
    srBulk.data.lookup "comment" = Option.none ∧
    srBulk.data.lookup "res0" = some (Value.objTableV 1) ∧
    srBulk.data.lookup "res1" = some (Value.frameV 2) :=
  ⟨rfl, rfl, rfl, rfl, rfl, rfl, rfl, rfl, rfl⟩

/-- C4: for every exploring Parameter whose exploration tuple carries its
`length` points, `selectPoint(i)` followed by `get()` returns the i-th
exploration value for every nonnegative index i below `length`, and
`selectPoint(i)` with i at or beyond `length` fails with IndexError. -/
theorem spec_C4_point_selection (p : Parameter) (i : Nat)
    (hexp : 1 < p.length) (hwf : p.explored_data.length = p.length) :
    (i < p.length →
      (p.set_parameter_access i).isOk = true ∧
      (Parameter.get (okOr (p.set_parameter_access i))).2 =
        p.explored_data.getD i Value.pyNone) ∧
    (p.length ≤ i → p.set_parameter_access i = Except.error Err.indexError) := by
  constructor
  · intro hi
    have hnot : ¬ p.length ≤ i := Nat.not_le.mpr hi
    have hi2 : i < p.explored_data.length := by rw [hwf]; exact hi
    simp [Parameter.set_parameter_access, hnot, okOr, Parameter.get,
      Except.isOk, Except.toBool, List.getElem?_eq_getElem hi2,
      List.getD_eq_getElem?_getD]
  · intro hi
    have harr : p.is_array = true := by
      simp [Parameter.is_array]
      exact hexp
    simp [Parameter.set_parameter_access, hi, harr]

/-- Witness for C4 at `pExplored` with the in-range index 1 and the
out-of-range index 5. -/
theorem spec_C4_witness :
    (1 < pExplored.length ∧ pExplored.explored_data.length = pExplored.length ∧
     1 < pExplored.length ∧ pExplored.length ≤ 5) ∧
    ((pExplored.set_parameter_access 1).isOk = true ∧
     (Parameter.get (okOr (pExplored.set_parameter_access 1))).2 =
       pExplored.explored_data.getD 1 Value.pyNone) ∧
    pExplored.set_parameter_access 5 = Except.error Err.indexError :=
  ⟨⟨by decide, by decide, by decide, by decide⟩,
   (spec_C4_point_selection pExplored 1 (by decide) (by decide)).1 (by decide),
   (spec_C4_point_selection pExplored 5 (by decide) (by decide)).2 (by decide)⟩

/-- C1: for every Parameter holding at least one value, single or
exploring (with the exploration tuple carrying its `length` points),
loading the record produced by `store()` into a fresh Parameter
reconstructs a container whose `get()` result, `is_array()` and length
equal those of the original. -/
theorem spec_C1_roundtrip (p : Parameter) (gname : String)
    (h1 : 1 ≤ p.length)
    (h2 : 1 < p.length → p.explored_data.length = p.length) :
    (Parameter.load (Parameter.new gname) (Parameter.store p)).isOk = true ∧
    (Parameter.get (okOr (Parameter.load (Parameter.new gname)
      (Parameter.store p)))).2 = (Parameter.get p).2 ∧
    (okOr (Parameter.load (Parameter.new gname) (Parameter.store p))).is_array =
      p.is_array ∧
    (okOr (Parameter.load (Parameter.new gname) (Parameter.store p))).length =
      p.length := by
  by_cases h : 1 < p.length
  · have hexp := h2 h
    simp [Parameter.store, Parameter.load, ObjectTable.getCol, okOr,
      Parameter.get, Parameter.is_array, Except.isOk, Except.toBool, h, hexp]
  · have hlen : p.length = 1 := by omega
    simp [Parameter.store, Parameter.load, ObjectTable.getCol, okOr,
      Parameter.get, Parameter.is_array, Except.isOk, Except.toBool, h, hlen]

/-- Witness for C1 at the exploring parameter `pExplored`. -/
theorem spec_C1_witness :
    (1 ≤ pExplored.length ∧
     pExplored.explored_data.length = pExplored.length) ∧
    ((Parameter.load (Parameter.new "g") (Parameter.store pExplored)).isOk =
      true ∧
     (Parameter.get (okOr (Parameter.load (Parameter.new "g")
       (Parameter.store pExplored)))).2 = (Parameter.get pExplored).2 ∧
     (okOr (Parameter.load (Parameter.new "g")
       (Parameter.store pExplored))).is_array = pExplored.is_array ∧
     (okOr (Parameter.load (Parameter.new "g")
       (Parameter.store pExplored))).length = pExplored.length) :=
  ⟨⟨by decide, by decide⟩,
   spec_C1_roundtrip pExplored "g" (by decide) (fun _ => by decide)⟩

/-- C10: `store()` is total, also on an empty Parameter, and its `Data`
table is the single-column, single-cell table holding the current
(possibly None) value; loading any record without `ExploredData` yields
length exactly 1, and loading the record `store()` produced always yields
length at least 1 with `is_empty()` false — exactly 1 when that record
has no `ExploredData` — so the empty state never survives a store/load
round trip. -/
theorem spec_C10_store_load (p : Parameter) (gname : String) (d : StoreDict)
    (hwf : 1 < p.length → p.explored_data ≠ [])
    (hd : d.ExploredData = Option.none) :
    (Parameter.store p).Data = { colname := "data", cells := [p.data] } ∧
    ((Parameter.load (Parameter.new gname) d).isOk = true →
      (okOr (Parameter.load (Parameter.new gname) d)).length = 1) ∧
    (Parameter.load (Parameter.new gname) (Parameter.store p)).isOk = true ∧
    1 ≤ (okOr (Parameter.load (Parameter.new gname)
      (Parameter.store p))).length ∧
    (okOr (Parameter.load (Parameter.new gname)
      (Parameter.store p))).is_empty = false ∧
    ((Parameter.store p).ExploredData = Option.none →
      (okOr (Parameter.load (Parameter.new gname)
        (Parameter.store p))).length = 1) := by
  refine ⟨by simp [Parameter.store], ?_, ?_⟩
  · intro hok
    rcases d with ⟨⟨cn, cells⟩, ed⟩
    simp only at hd
    subst hd
    by_cases hcn : cn = "data"
    · subst hcn
      cases cells with
      | nil =>
        simp [Parameter.load, ObjectTable.getCol, Except.isOk,
          Except.toBool] at hok
      | cons c rest => simp [Parameter.load, ObjectTable.getCol, okOr]
    · simp [Parameter.load, ObjectTable.getCol, hcn, Except.isOk,
        Except.toBool] at hok
  · by_cases h : 1 < p.length
    · have hpos : 0 < p.explored_data.length :=
        List.length_pos.mpr (hwf h)
      have hne : ¬ p.explored_data.length = 0 := by omega
      refine ⟨?_, ?_, ?_, ?_⟩ <;>
        simp [Parameter.store, Parameter.load, ObjectTable.getCol,
          Parameter.is_array, okOr, Parameter.is_empty, Except.isOk,
          Except.toBool, h, hpos, hne] <;> omega
    · refine ⟨?_, ?_, ?_, ?_⟩ <;>
        simp [Parameter.store, Parameter.load, ObjectTable.getCol,
          Parameter.is_array, okOr, Parameter.is_empty, Except.isOk,
          Except.toBool, h]

/-- Witness for C10 at the empty parameter and the record `dEmpty`. -/
theorem spec_C10_witness :
    dEmpty.ExploredData = Option.none ∧
    (Parameter.store (Parameter.new "e")).Data =
      { colname := "data", cells := [Value.pyNone] } ∧
    (okOr (Parameter.load (Parameter.new "g") dEmpty)).length = 1 ∧
    (Parameter.load (Parameter.new "g")
      (Parameter.store (Parameter.new "e"))).isOk = true ∧
    1 ≤ (okOr (Parameter.load (Parameter.new "g")
      (Parameter.store (Parameter.new "e")))).length ∧
    (okOr (Parameter.load (Parameter.new "g")
      (Parameter.store (Parameter.new "e")))).is_empty = false ∧
    (okOr (Parameter.load (Parameter.new "g")
      (Parameter.store (Parameter.new "e")))).length = 1 := by
  have H := spec_C10_store_load (Parameter.new "e") "g" dEmpty
    (fun h => absurd h (by decide)) rfl
  exact ⟨rfl, H.1, H.2.1 rfl, H.2.2.1, H.2.2.2.1, H.2.2.2.2.1,
    H.2.2.2.2.2 rfl⟩

end Pypet
